import Mathlib

/-!
Shallow embedding of the userscale autoscaling controller
(`src/scaler/main.py`) and proofs about its decision pipeline.

Python floats are modelled as `Rat`, Python ints as `Int`, absent values
(`None`) as `Option`.  Mutable objects (`EWMASignal`, `ScalingController`)
become explicit state passing; `time.time()` becomes an explicit `now`
argument.  Each definition mirrors the Python function of the same name.
-/

/-- The module-level configuration constants of `scaler/main.py`
(each read from the environment with a default). -/
structure Config where
  minReplicas : Int
  maxReplicas : Int
  usersTargetPerPod : Int
  cpuTarget : Rat
  gpuTarget : Rat
  latencyTargetMs : Rat
  scaleUpStep : Int
  scaleDownStep : Int
  cooldownScaleUp : Rat
  cooldownScaleDown : Rat
  alpha : Rat
  deriving DecidableEq

/-- The default values of the environment-derived constants in
`scaler/main.py` lines 25-36. -/
def defaultConfig : Config where
  minReplicas := 3
  maxReplicas := 20
  usersTargetPerPod := 5
  cpuTarget := 30
  gpuTarget := 40
  latencyTargetMs := 100
  scaleUpStep := 5
  scaleDownStep := 1
  cooldownScaleUp := 2
  cooldownScaleDown := 45
  alpha := 3/10

/-- `EWMASignal` from `scaler/main.py` lines 44-54: `alpha` plus an
optional stored value (`None` before the first sample). -/
structure EWMASignal where
  alpha : Rat
  value : Option Rat
  deriving DecidableEq

/-- `EWMASignal.update` (lines 49-54).  Returns the new value (Python
returns it) together with the mutated object. -/
def EWMASignal.update (s : EWMASignal) (x : Rat) : Rat × EWMASignal :=
  match s.value with
  | none => (x, { s with value := some x })
  | some v =>
      let nv := s.alpha * x + (1 - s.alpha) * v
      (nv, { s with value := some nv })

/-- The guarded call site `gpu_ewma.update(avg_gpu) if avg_gpu is not None
else None` (line 331): an absent sample skips the update entirely. -/
def EWMASignal.updateOpt (s : EWMASignal) (x : Option Rat) : Option Rat × EWMASignal :=
  match x with
  | none => (none, s)
  | some v =>
      let r := s.update v
      (some r.1, r.2)

/-- `ScalingController` state (lines 57-64). -/
structure ScalingController where
  last_scale_up_time : Rat
  last_scale_down_time : Rat
  scale_direction : Int
  consecutive_scales : Int
  latency_spike_count : Int
  deriving DecidableEq

/-- `ScalingController.__init__` (lines 59-64). -/
def ScalingController.init : ScalingController where
  last_scale_up_time := 0
  last_scale_down_time := 0
  scale_direction := 0
  consecutive_scales := 0
  latency_spike_count := 0

/-- `ScalingController.can_scale` (lines 66-90).  `now` stands for
`time.time()`.  Returns the boolean result together with the possibly
mutated controller (the direction/consecutive reset at lines 82-84). -/
def ScalingController.can_scale (c : ScalingController) (cfg : Config)
    (direction : Int) (latency_critical : Bool) (now : Rat) :
    Bool × ScalingController :=
  if direction > 0 ∧
      now - c.last_scale_up_time <
        (if latency_critical then 0 else cfg.cooldownScaleUp) then
    (false, c)
  else if direction < 0 ∧
      now - c.last_scale_down_time < cfg.cooldownScaleDown then
    (false, c)
  else
    let c2 :=
      if direction ≠ c.scale_direction then
        { c with consecutive_scales := 0, scale_direction := direction }
      else c
    if direction > 0 then (decide (c2.consecutive_scales < 5), c2)
    else (decide (c2.consecutive_scales < 2), c2)

/-- `ScalingController.record_scale` (lines 92-101). -/
def ScalingController.record_scale (c : ScalingController)
    (direction : Int) (now : Rat) : ScalingController :=
  let c2 :=
    if direction > 0 then { c with last_scale_up_time := now }
    else if direction < 0 then { c with last_scale_down_time := now }
    else c
  { c2 with scale_direction := direction,
            consecutive_scales := c2.consecutive_scales + 1 }

/-- `ScalingController.check_latency_critical` (lines 103-110):
critical iff `latency > target * 1.5`; the spike counter is updated as
a side effect. -/
def ScalingController.check_latency_critical (c : ScalingController)
    (latency target : Rat) : Bool × ScalingController :=
  if latency > target * (3/2) then
    (true, { c with latency_spike_count := c.latency_spike_count + 1 })
  else
    (false, { c with latency_spike_count := max 0 (c.latency_spike_count - 1) })

/-- One pod's successfully scraped `/metrics` payload (the fields the
scaler reads).  Pods that failed to respond are simply not in the list,
mirroring the `continue` on error in lines 139-152. -/
structure PodMetrics where
  active_users : Int
  cpu_percent : Rat
  gpu_utilization : Option Rat
  avg_latency_ms : Rat
  deriving DecidableEq

/-- `get_users_and_cpu` (lines 132-155) restricted to the pods that
responded: sums users, averages cpu over all respondents (0.0 when none),
averages gpu over the respondents that reported one (None when none). -/
def get_users_and_cpu (pods : List PodMetrics) : Int × Rat × Option Rat :=
  let total_active_users := (pods.map (·.active_users)).sum
  let pod_cpu := pods.map (·.cpu_percent)
  let pod_gpu := pods.filterMap (·.gpu_utilization)
  let avg_cpu : Rat :=
    if pod_cpu.isEmpty then 0 else pod_cpu.sum / (pod_cpu.length : Rat)
  let avg_gpu : Option Rat :=
    if pod_gpu.isEmpty then none else some (pod_gpu.sum / (pod_gpu.length : Rat))
  (total_active_users, avg_cpu, avg_gpu)

/-- `get_avg_latency` (lines 158-184): averages the strictly positive
latencies, dividing by `max(pod_count, 1)` so that zero respondents give
`0.0`. -/
def get_avg_latency (pods : List PodMetrics) : Rat :=
  let ls := pods.filterMap
    (fun p => if p.avg_latency_ms > 0 then some p.avg_latency_ms else none)
  ls.sum / ((max ls.length 1 : Nat) : Rat)

/-- Python `int()` truncation toward zero, used at `int(u_smooth)`
(line 334). -/
def pytrunc (x : Rat) : Int :=
  if 0 ≤ x then ⌊x⌋ else ⌈x⌉

/-- `compute_desired_by_users` (lines 205-208).  The `replicas` argument
is accepted and ignored, exactly as in the source. -/
def compute_desired_by_users (cfg : Config) (total_users : Int)
    (replicas : Int) : Int :=
  let per_pod := cfg.usersTargetPerPod
  let needed : Int := ⌈(total_users : Rat) / ((max per_pod 1 : Int) : Rat)⌉
  max needed cfg.minReplicas

/-- `compute_desired_by_latency` (lines 211-236). -/
def compute_desired_by_latency (cfg : Config)
    (avg_latency_ms target_latency_ms : Rat) (replicas : Int) : Int :=
  if target_latency_ms ≤ 0 ∨ avg_latency_ms ≤ 0 then replicas
  else
    let ratio := avg_latency_ms / target_latency_ms
    if ratio > 10 then cfg.maxReplicas
    else if ratio > 5 then min (replicas * 4) cfg.maxReplicas
    else if ratio > 3 then min (replicas * 3) cfg.maxReplicas
    else if ratio > 2 then min (replicas * 2) cfg.maxReplicas
    else if ratio > 3/2 then min (replicas + 5) cfg.maxReplicas
    else if ratio > 6/5 then min (replicas + 3) cfg.maxReplicas
    else if ratio > 1 then min (replicas + 2) cfg.maxReplicas
    else if ratio < 3/10 then max (replicas - 1) cfg.minReplicas
    else replicas

/-- `compute_desired_by_util` (lines 239-257). -/
def compute_desired_by_util (cfg : Config) (avg_util target : Rat)
    (replicas : Int) : Int :=
  if target ≤ 0 then replicas
  else
    let ratio := avg_util / target
    if ratio > 3/2 then min (replicas * 2) cfg.maxReplicas
    else if ratio > 6/5 then min (replicas + 2) cfg.maxReplicas
    else if ratio > 1 then min (replicas + 1) cfg.maxReplicas
    else if ratio < 3/10 then max (replicas - 1) cfg.minReplicas
    else if ratio < 1/2 then max (replicas - 1) cfg.minReplicas
    else replicas

/-- `compute_desired_by_gpu` (lines 260-288); `gpu_util` may be `None`. -/
def compute_desired_by_gpu (cfg : Config) (gpu_util : Option Rat)
    (replicas : Int) : Int :=
  match gpu_util with
  | none => replicas
  | some g =>
      if g < 0 then replicas
      else if g > 85 then min (replicas * 3) cfg.maxReplicas
      else if g > 75 then min (replicas * 2) cfg.maxReplicas
      else if g > 65 then min (replicas + 4) cfg.maxReplicas
      else if g > 55 then min (replicas + 3) cfg.maxReplicas
      else if g > 45 then min (replicas + 2) cfg.maxReplicas
      else if g > 35 then min (replicas + 1) cfg.maxReplicas
      else if g < 10 then max (replicas - 2) cfg.minReplicas
      else if g < 20 then max (replicas - 1) cfg.minReplicas
      else replicas

/-- `clamp_step` (lines 291-302). -/
def clamp_step (cfg : Config) (current desired : Int)
    (latency_critical : Bool) : Int :=
  if desired > current then
    if latency_critical then min desired cfg.maxReplicas
    else min (min (current + cfg.scaleUpStep) desired) cfg.maxReplicas
  else if desired < current then
    max (max (current - cfg.scaleDownStep) desired) cfg.minReplicas
  else current

/-- The combination rule of `main` (lines 334-366): per-metric desired
counts, then the GPU-first priority chain, then the global clamp of
line 366. -/
def combine_desired (cfg : Config) (current u : Int)
    (c_smooth l_smooth : Rat) (g_smooth : Option Rat) : Int :=
  let desired_u := compute_desired_by_users cfg u current
  let desired_c := compute_desired_by_util cfg c_smooth cfg.cpuTarget current
  let desired_l := compute_desired_by_latency cfg l_smooth cfg.latencyTargetMs current
  let desired_g :=
    match g_smooth with
    | some g => compute_desired_by_gpu cfg (some g) current
    | none => current
  let inner :=
    if g_smooth.isSome ∧ desired_g ≠ current then desired_g
    else if desired_l > current then desired_l
    else if desired_u > current then desired_u
    else if desired_c > current then desired_c
    else current
  max cfg.minReplicas (min inner cfg.maxReplicas)

/-- The `scaling_reason` recorded along the same chain (lines 347-364). -/
def combine_reason (cfg : Config) (current u : Int)
    (c_smooth l_smooth : Rat) (g_smooth : Option Rat) : String :=
  let desired_u := compute_desired_by_users cfg u current
  let desired_c := compute_desired_by_util cfg c_smooth cfg.cpuTarget current
  let desired_l := compute_desired_by_latency cfg l_smooth cfg.latencyTargetMs current
  let desired_g :=
    match g_smooth with
    | some g => compute_desired_by_gpu cfg (some g) current
    | none => current
  if g_smooth.isSome ∧ desired_g ≠ current then "gpu"
  else if desired_l > current then "latency"
  else if desired_u > current then "users"
  else if desired_c > current then "cpu"
  else "no_change"

/-- The per-cycle scaling decision (`desired` after line 366 plus
`scaling_reason`). -/
structure Decision where
  desired : Int
  reason : String
  deriving DecidableEq

/-- The decision policy of one loop iteration, as a pure function of the
smoothed signals (lines 334-366). -/
def decide_replicas (cfg : Config) (current u : Int)
    (c_smooth l_smooth : Rat) (g_smooth : Option Rat) : Decision where
  desired := combine_desired cfg current u c_smooth l_smooth g_smooth
  reason := combine_reason cfg current u c_smooth l_smooth g_smooth

/-- The four EWMA instances created in `main` (lines 310-313). -/
structure EwmaBank where
  user : EWMASignal
  cpu : EWMASignal
  gpu : EWMASignal
  latency : EWMASignal
  deriving DecidableEq

/-- An `EwmaBank` as freshly constructed in `main`: all values unseeded. -/
def freshBank (alpha : Rat) : EwmaBank where
  user := ⟨alpha, none⟩
  cpu := ⟨alpha, none⟩
  gpu := ⟨alpha, none⟩
  latency := ⟨alpha, none⟩

/-- One cycle of `main` from aggregation to decision (lines 325-366):
aggregate the responding pods, feed the EWMAs, decide.  Returns the
decision plus the advanced smoothing state. -/
def cycle_decide (cfg : Config) (current : Int) (bank : EwmaBank)
    (pods : List PodMetrics) : Decision × EwmaBank :=
  let agg := get_users_and_cpu pods
  let avg_latency := get_avg_latency pods
  let ru := bank.user.update (agg.1 : Rat)
  let rc := bank.cpu.update agg.2.1
  let rl := bank.latency.update avg_latency
  let rg := bank.gpu.updateOpt agg.2.2
  let d := decide_replicas cfg current (pytrunc ru.1) rc.1 rl.1 rg.1
  (d, ⟨ru.2, rc.2, rg.2, rl.2⟩)

/-- The apply phase of `main` (lines 369-406) for a cycle whose decision
is `desired`: gate through `can_scale`, clamp, and — when the patch call
succeeds (`patch_ok`) — record the scale.  A raised patch exception
(`patch_ok = false`) skips `record_scale` and falls to the outer handler,
keeping whatever `can_scale` already mutated.  Returns the controller
state and whether a scale was recorded. -/
def apply_phase (cfg : Config) (c : ScalingController)
    (current desired : Int) (latency_critical : Bool) (now : Rat)
    (patch_ok : Bool) : ScalingController × Bool :=
  let dir : Int := if desired > current then 1 else if desired < current then -1 else 0
  if dir ≠ 0 then
    let r := c.can_scale cfg dir latency_critical now
    if r.1 then
      let bounded := clamp_step cfg current desired latency_critical
      if bounded ≠ current then
        if patch_ok then (r.2.record_scale dir now, true)
        else (r.2, false)
      else (r.2, false)
    else (r.2, false)
  else (c, false)

/-!
Definitions written from the specification text, for comparison with the
code-derived definitions above.
-/

/-- The combination rule exactly as the specification words it: scan the
per-metric suggestions in the order request-load, latency, GPU, CPU and
adopt the first one that differs upward from `current`; a suggestion that
differs only downward is never adopted by the scan. -/
def priority_scan_claim (cfg : Config) (current u : Int)
    (c l : Rat) (g : Option Rat) : Int :=
  let sug_load := compute_desired_by_users cfg u current
  let sug_lat := compute_desired_by_latency cfg l cfg.latencyTargetMs current
  let sug_gpu :=
    match g with
    | some x => compute_desired_by_gpu cfg (some x) current
    | none => current
  let sug_cpu := compute_desired_by_util cfg c cfg.cpuTarget current
  if sug_load > current then sug_load
  else if sug_lat > current then sug_lat
  else if sug_gpu > current then sug_gpu
  else if sug_cpu > current then sug_cpu
  else current

/-- The amended combination rule: scan GPU first, adopting its suggestion
whenever a GPU signal is present and the suggestion differs from
`current` in either direction; then latency, then request-load, then CPU,
adopting the first whose suggestion differs upward; finally clamp the
result into `[minReplicas, maxReplicas]`. -/
def amended_scan (cfg : Config) (current u : Int)
    (c l : Rat) (g : Option Rat) : Int :=
  let sug_load := compute_desired_by_users cfg u current
  let sug_lat := compute_desired_by_latency cfg l cfg.latencyTargetMs current
  let sug_gpu :=
    match g with
    | some x => compute_desired_by_gpu cfg (some x) current
    | none => current
  let sug_cpu := compute_desired_by_util cfg c cfg.cpuTarget current
  let adopted :=
    if g.isSome ∧ sug_gpu ≠ current then sug_gpu
    else if sug_lat > current then sug_lat
    else if sug_load > current then sug_load
    else if sug_cpu > current then sug_cpu
    else current
  max cfg.minReplicas (min adopted cfg.maxReplicas)

/-- Smoothing state after many cycles of idle traffic but recently high
latency: users and cpu have decayed to 0, latency is still 1000 ms. -/
def warmBank : EwmaBank :=
  ⟨⟨3/10, some 0⟩, ⟨3/10, some 0⟩, ⟨3/10, none⟩, ⟨3/10, some 1000⟩⟩

/-- The default configuration with the scenario up-cooldown of 8 seconds. -/
def cfg8 : Config := { defaultConfig with cooldownScaleUp := 8 }

/-- Controller state whose last recorded direction was a scale-down with
one consecutive scale, both cooldown timestamps at 0. -/
def c9start : ScalingController := ⟨0, 0, -1, 1, 0⟩

/-!
Helper lemmas shared by several claim theorems.
-/

/-- `compute_desired_by_gpu` never drops more than 2 below the current
count when the current count is within `[0, maxReplicas]`. -/
theorem compute_desired_by_gpu_ge (cfg : Config) (g : Option Rat) (r : Int)
    (h0 : 0 ≤ r) (hmax : r ≤ cfg.maxReplicas) :
    r - 2 ≤ compute_desired_by_gpu cfg g r := by
  cases g with
  | none => simp only [compute_desired_by_gpu]; omega
  | some x => simp only [compute_desired_by_gpu]; split_ifs <;> omega

/-- With no GPU signal, the combined decision never falls below the
current replica count, provided the current count does not exceed the
configured maximum. -/
theorem combine_desired_none_ge (cfg : Config) (current u : Int)
    (c l : Rat) (hmax : current ≤ cfg.maxReplicas) :
    current ≤ combine_desired cfg current u c l none := by
  simp only [combine_desired]
  split_ifs <;> omega

/-- `can_scale` never touches the per-direction timestamps; only
`record_scale` does. -/
theorem can_scale_preserves_times (c : ScalingController) (cfg : Config)
    (d : Int) (crit : Bool) (now : Rat) :
    ((c.can_scale cfg d crit now).2.last_scale_up_time = c.last_scale_up_time) ∧
    ((c.can_scale cfg d crit now).2.last_scale_down_time = c.last_scale_down_time) := by
  simp only [ScalingController.can_scale]
  split_ifs <;> simp

/-!
Claim theorems.
-/

/-- C1 counterexample: at `current = 3`, `users = 100`, `gpu = 90`, the
code adopts the GPU suggestion 9 while the claimed request-load-first
upward scan returns 20; and at `current = 10`, `gpu = 5`, the code adopts
a GPU suggestion that differs only downward (8), which the claimed scan
never adopts (it returns 10). -/
theorem c1_counterexample :
    (decide_replicas defaultConfig 3 100 0 0 (some 90)).desired = 9 ∧
    priority_scan_claim defaultConfig 3 100 0 0 (some 90) = 20 ∧
    (decide_replicas defaultConfig 10 0 0 0 (some 5)).desired = 8 ∧
    priority_scan_claim defaultConfig 10 0 0 0 (some 5) = 10 := by
  refine ⟨by decide, ?_, by decide, ?_⟩ <;>
    norm_num [priority_scan_claim, compute_desired_by_users,
      compute_desired_by_latency, compute_desired_by_util,
      compute_desired_by_gpu, defaultConfig]

/-- C1 (amended): the combination rule of `main` scans GPU first,
adopting its suggestion whenever a GPU signal is present and the
suggestion differs from `current` in either direction; then latency,
then request-load, then CPU, adopting the first whose suggestion differs
upward; the result is clamped into `[minReplicas, maxReplicas]`. -/
theorem c1_combination_rule (cfg : Config) (current u : Int)
    (c l : Rat) (g : Option Rat) :
    (decide_replicas cfg current u c l g).desired =
      amended_scan cfg current u c l g := rfl

/-- C2 counterexample: with zero responding pods the aggregation reports
`users = 0`, `cpu = 0.0` and `latency = 0.0` (coerced to zero, only GPU is
absent), and with warm smoothing state (recent latency 1000 ms) the cycle
with zero responding pods decides to scale 3 → 12 — not a forced hold. -/
theorem c2_counterexample :
    get_users_and_cpu [] = (0, 0, none) ∧
    get_avg_latency [] = 0 ∧
    (cycle_decide defaultConfig 3 warmBank []).1 = ⟨12, "latency"⟩ := by
  refine ⟨by decide, by simp [get_avg_latency], ?_⟩
  norm_num [cycle_decide, decide_replicas, combine_desired, combine_reason,
    get_users_and_cpu, get_avg_latency, EWMASignal.update, EWMASignal.updateOpt,
    warmBank, pytrunc, compute_desired_by_users, compute_desired_by_latency,
    compute_desired_by_util, compute_desired_by_gpu, defaultConfig]

/-- C2 (amended): when zero pods respond, the aggregation coerces users,
cpu and latency to 0 and reports only GPU as absent; nevertheless the
cycle never scales below `current` whenever `current ≤ maxReplicas`,
because downward suggestions from the zeroed cpu signal are not adopted
and the GPU branch is skipped.  (With warm smoothing state the decision
need not be a hold: decayed latency can still suggest scaling up.) -/
theorem c2_no_signal (cfg : Config) (current : Int) (bank : EwmaBank)
    (hmax : current ≤ cfg.maxReplicas) :
    get_users_and_cpu [] = (0, 0, none) ∧
    get_avg_latency [] = 0 ∧
    current ≤ (cycle_decide cfg current bank []).1.desired := by
  refine ⟨by decide, by simp [get_avg_latency], ?_⟩
  exact combine_desired_none_ge cfg current _ _ _ hmax

theorem c2_no_signal_witness :
    get_users_and_cpu [] = (0, 0, none) ∧
    get_avg_latency [] = 0 ∧
    (5 : Int) ≤ (cycle_decide defaultConfig 5 (freshBank (3/10)) []).1.desired :=
  c2_no_signal defaultConfig 5 (freshBank (3/10)) (by decide)

/-- C3: for every input, the decision's desired replica count lies within
`[minReplicas, maxReplicas]`, provided the configured bounds are ordered
(`minReplicas ≤ maxReplicas`, the documented invariant `0 < min ≤ max`). -/
theorem c3_decision_bounds (cfg : Config) (current u : Int)
    (c l : Rat) (g : Option Rat) (h : cfg.minReplicas ≤ cfg.maxReplicas) :
    cfg.minReplicas ≤ (decide_replicas cfg current u c l g).desired ∧
    (decide_replicas cfg current u c l g).desired ≤ cfg.maxReplicas := by
  show cfg.minReplicas ≤ combine_desired cfg current u c l g ∧
    combine_desired cfg current u c l g ≤ cfg.maxReplicas
  simp only [combine_desired]
  omega

theorem c3_decision_bounds_witness :
    defaultConfig.minReplicas ≤ (decide_replicas defaultConfig 5 0 0 0 none).desired ∧
    (decide_replicas defaultConfig 5 0 0 0 none).desired ≤ defaultConfig.maxReplicas :=
  c3_decision_bounds defaultConfig 5 0 0 0 none (by decide)

/-- C4 counterexample: `clamp_step` does not clamp its result into
`[minReplicas, maxReplicas]`: with the default bounds `[3, 20]`,
`clamp_step 25 24` returns 24 > 20; and on the upward call
`clamp_step 25 30` it returns 20, a decrease of 5 — so it can also
decrease replicas by more than 1. -/
theorem c4_counterexample :
    clamp_step defaultConfig 25 24 false = 24 ∧
    defaultConfig.maxReplicas = 20 ∧
    clamp_step defaultConfig 25 30 false = 20 := by
  refine ⟨by decide, by decide, by decide⟩

/-- C4 (amended): whenever `current` is within `[minReplicas, maxReplicas]`
and the configured steps are nonnegative, `clamp_step` never increases
replicas by more than `scaleUpStep` unless the critical bypass is set (in
which case the full jump to `desired` is permitted, capped at
`maxReplicas`), never decreases replicas by more than `scaleDownStep`
(1 in the default configuration), and its result stays within
`[minReplicas, maxReplicas]`.  For `current` outside the bounds the result
can escape the bounds, as the counterexample shows. -/
theorem c4_clamp_step (cfg : Config) (current desired : Int) (crit : Bool)
    (hup : 0 ≤ cfg.scaleUpStep) (hdown : 0 ≤ cfg.scaleDownStep)
    (hlo : cfg.minReplicas ≤ current) (hhi : current ≤ cfg.maxReplicas) :
    (crit = false → clamp_step cfg current desired crit ≤ current + cfg.scaleUpStep) ∧
    current - cfg.scaleDownStep ≤ clamp_step cfg current desired crit ∧
    cfg.minReplicas ≤ clamp_step cfg current desired crit ∧
    clamp_step cfg current desired crit ≤ cfg.maxReplicas := by
  refine ⟨fun hc => ?_, ?_, ?_, ?_⟩ <;>
    (simp only [clamp_step]; split_ifs <;> first | omega | simp_all)

theorem c4_clamp_step_witness :
    ((false = false → clamp_step defaultConfig 5 30 false ≤ 5 + defaultConfig.scaleUpStep) ∧
    (5 : Int) - defaultConfig.scaleDownStep ≤ clamp_step defaultConfig 5 30 false ∧
    defaultConfig.minReplicas ≤ clamp_step defaultConfig 5 30 false ∧
    clamp_step defaultConfig 5 30 false ≤ defaultConfig.maxReplicas) :=
  c4_clamp_step defaultConfig 5 30 false (by decide) (by decide) (by decide) (by decide)

/-- C5 counterexample: on a freshly constructed controller — whose spike
counter is 0, i.e. the critical condition has never held before — a
single cycle with latency 200 against target 100 already reports
critical, and that flag already bypasses the up-cooldown (`can_scale` at
`now = 1` is blocked without the flag, allowed with it). -/
theorem c5_counterexample :
    ScalingController.init.latency_spike_count = 0 ∧
    (ScalingController.init.check_latency_critical 200 100).1 = true ∧
    (((ScalingController.init.check_latency_critical 200 100).2.can_scale
        defaultConfig 1 true 1).1 = true) ∧
    (((ScalingController.init.check_latency_critical 200 100).2.can_scale
        defaultConfig 1 false 1).1 = false) := by
  refine ⟨rfl, ?_, ?_, ?_⟩ <;>
    norm_num [ScalingController.check_latency_critical, ScalingController.can_scale,
      ScalingController.init, defaultConfig]

/-- C5 (amended): the up-cooldown bypass is granted whenever the current
cycle's latency exceeds 1.5 times the target, regardless of how many
consecutive cycles the condition has held: `check_latency_critical`
depends only on the current sample, never on the tracked spike counter
(which is updated but not consulted). -/
theorem c5_critical_single_cycle (c1 c2 : ScalingController) (lat tgt : Rat) :
    (c1.check_latency_critical lat tgt).1 = (c2.check_latency_critical lat tgt).1 ∧
    ((c1.check_latency_critical lat tgt).1 = true ↔ lat > tgt * (3/2)) := by
  constructor
  · simp only [ScalingController.check_latency_critical]
    split_ifs <;> rfl
  · simp only [ScalingController.check_latency_critical]
    split_ifs with h <;> simp [h]

/-- C6 counterexample: at `current = 10` with smoothed GPU utilization 5
(and everything else idle), the decision policy produces the downward
decision 8 = current - 2 — a multi-step decrease, not `current - 1`. -/
theorem c6_counterexample :
    (decide_replicas defaultConfig 10 0 0 0 (some 5)).desired = 8 ∧
    (8 : Int) = 10 - 2 := by
  refine ⟨by decide, by decide⟩

/-- C6 (amended): a downward decision comes from the GPU suggestion,
which may be as low as `current - 2` (GPU utilization below 10): the
policy can issue a 2-step decrease, and never more than 2 while
`0 ≤ current ≤ maxReplicas` (the subsequent `clamp_step` limits the
applied decrease to `scaleDownStep`, 1 by default). -/
theorem c6_downward_bound (cfg : Config) (current u : Int)
    (c l : Rat) (g : Option Rat)
    (h0 : 0 ≤ current) (hmax : current ≤ cfg.maxReplicas) :
    current - 2 ≤ (decide_replicas cfg current u c l g).desired := by
  show current - 2 ≤ combine_desired cfg current u c l g
  have hg := compute_desired_by_gpu_ge cfg g current h0 hmax
  cases g with
  | none =>
      have := combine_desired_none_ge cfg current u c l hmax
      omega
  | some x =>
      simp only [combine_desired]
      split_ifs <;> omega

theorem c6_downward_bound_witness :
    (10 : Int) - 2 ≤ (decide_replicas defaultConfig 10 0 0 0 (some 5)).desired :=
  c6_downward_bound defaultConfig 10 0 0 0 (some 5) (by decide) (by decide)

/-- C7: the first `update x` stores exactly `x` (no warm-up bias), a
subsequent `update x` stores `alpha*x + (1-alpha)*value`, and an absent
sample (the guarded call site) leaves the stored value unchanged. -/
theorem c7_ewma_update (a x v : Rat) (s : EWMASignal) :
    EWMASignal.update ⟨a, none⟩ x = (x, ⟨a, some x⟩) ∧
    EWMASignal.update ⟨a, some v⟩ x =
      (a * x + (1 - a) * v, ⟨a, some (a * x + (1 - a) * v)⟩) ∧
    s.updateOpt none = (none, s) :=
  ⟨rfl, rfl, rfl⟩

/-- C8: scale-up and scale-down are gated by two independent per-direction
timestamps, each checked as elapsed time against its own interval
(`cooldownScaleUp` for up, `cooldownScaleDown` for down) since the
corresponding last applied action; and in the scenario with
`upCooldown = 8`, a scale-up recorded at `t = 0` gates an upward trigger
at `t = 3` to a hold while the same trigger at `t = 9` is allowed. -/
theorem c8_cooldown_gating (cfg : Config) (c : ScalingController)
    (crit : Bool) (now : Rat) :
    (now - c.last_scale_up_time < (if crit then (0:Rat) else cfg.cooldownScaleUp) →
      c.can_scale cfg 1 crit now = (false, c)) ∧
    (now - c.last_scale_down_time < cfg.cooldownScaleDown →
      c.can_scale cfg (-1) crit now = (false, c)) ∧
    (((ScalingController.init.record_scale 1 0).can_scale cfg8 1 false 3).1 = false ∧
     ((ScalingController.init.record_scale 1 0).can_scale cfg8 1 false 9).1 = true) := by
  refine ⟨fun h => ?_, fun h => ?_, ?_, ?_⟩
  · simp only [ScalingController.can_scale]
    rw [if_pos ⟨by norm_num, h⟩]
  · simp only [ScalingController.can_scale]
    rw [if_neg (fun hh => by exact absurd hh.1 (by norm_num)), if_pos ⟨by norm_num, h⟩]
  · norm_num [ScalingController.can_scale, ScalingController.record_scale,
      ScalingController.init, cfg8, defaultConfig]
  · norm_num [ScalingController.can_scale, ScalingController.record_scale,
      ScalingController.init, cfg8, defaultConfig]

theorem c8_cooldown_gating_witness :
    (ScalingController.init.record_scale 1 0).can_scale cfg8 1 false 3 =
      (false, ScalingController.init.record_scale 1 0) :=
  (c8_cooldown_gating cfg8 (ScalingController.init.record_scale 1 0) false 3).1
    (by norm_num [ScalingController.record_scale, ScalingController.init, cfg8,
      defaultConfig])

/-- C9 counterexample: with the stored direction at -1 (one consecutive
scale-down) and a passing up-cooldown, an upward decision whose patch
call fails still mutates the cooldown state: `scale_direction` flips to 1
and `consecutive_scales` resets to 0 via `can_scale`, even though
`record_scale` was never reached. -/
theorem c9_counterexample :
    (apply_phase defaultConfig c9start 3 5 false 10 false).1.scale_direction = 1 ∧
    (apply_phase defaultConfig c9start 3 5 false 10 false).1.consecutive_scales = 0 ∧
    c9start.scale_direction = -1 ∧ c9start.consecutive_scales = 1 := by
  refine ⟨?_, ?_, rfl, rfl⟩ <;>
    norm_num [apply_phase, ScalingController.can_scale, clamp_step,
      c9start, defaultConfig]

/-- C9 (amended): when the scaling patch call fails, no scale is recorded
and the per-direction last-scale timestamps are left unchanged, so the
next cycle can re-evaluate and retry the same decision; however the
direction flag and consecutive-direction counter may already have been
mutated by the cooldown check that ran before the patch. -/
theorem c9_patch_failure (cfg : Config) (c : ScalingController)
    (current desired : Int) (crit : Bool) (now : Rat) :
    (apply_phase cfg c current desired crit now false).2 = false ∧
    (apply_phase cfg c current desired crit now false).1.last_scale_up_time =
      c.last_scale_up_time ∧
    (apply_phase cfg c current desired crit now false).1.last_scale_down_time =
      c.last_scale_down_time := by
  have h := can_scale_preserves_times c cfg
    (if desired > current then 1 else if desired < current then -1 else 0) crit now
  simp only [apply_phase]
  split_ifs <;> simp_all

/-- C10: `can_scale` with a direction that passes its cooldown check but
differs from the stored direction mutates the controller — it sets
`scale_direction` to the requested direction and resets
`consecutive_scales` to 0 — even though no scaling action has been
applied; when the cooldown check rejects the call it returns `false`
with the controller unchanged. -/
theorem c10_can_scale_mutation (cfg : Config) (c : ScalingController)
    (crit : Bool) (now : Rat) :
    (¬ now - c.last_scale_up_time < (if crit then (0:Rat) else cfg.cooldownScaleUp) →
      (1:Int) ≠ c.scale_direction →
      (c.can_scale cfg 1 crit now).2 =
        { c with scale_direction := 1, consecutive_scales := 0 }) ∧
    (¬ now - c.last_scale_down_time < cfg.cooldownScaleDown →
      (-1:Int) ≠ c.scale_direction →
      (c.can_scale cfg (-1) crit now).2 =
        { c with scale_direction := -1, consecutive_scales := 0 }) ∧
    (now - c.last_scale_up_time < (if crit then (0:Rat) else cfg.cooldownScaleUp) →
      c.can_scale cfg 1 crit now = (false, c)) ∧
    (now - c.last_scale_down_time < cfg.cooldownScaleDown →
      c.can_scale cfg (-1) crit now = (false, c)) := by
  refine ⟨fun h hne => ?_, fun h hne => ?_, fun h => ?_, fun h => ?_⟩
  · simp only [ScalingController.can_scale]
    rw [if_neg (fun hh => h hh.2),
      if_neg (fun hh => by exact absurd hh.1 (by norm_num)),
      if_pos hne, if_pos (by norm_num)]
  · simp only [ScalingController.can_scale]
    rw [if_neg (fun hh => by exact absurd hh.1 (by norm_num)),
      if_neg (fun hh => h hh.2), if_pos hne,
      if_neg (by norm_num)]
  · simp only [ScalingController.can_scale]
    rw [if_pos ⟨by norm_num, h⟩]
  · simp only [ScalingController.can_scale]
    rw [if_neg (fun hh => by exact absurd hh.1 (by norm_num)), if_pos ⟨by norm_num, h⟩]

theorem c10_can_scale_mutation_witness :
    (c9start.can_scale defaultConfig 1 false 10).2 =
      { c9start with scale_direction := 1, consecutive_scales := 0 } :=
  (c10_can_scale_mutation defaultConfig c9start false 10).1
    (by norm_num [c9start, defaultConfig]) (by norm_num [c9start])
